import Mathlib

/-!
Shallow embedding of the metric-derivation core of the roadmap health
dashboard (`app.py`): feature-progress calculation, blocker
identification, velocity calculation, and the error policy of the
GitHub fetch loop.  Python dictionaries become structures; dictionary
keys that may be absent become `Option` fields (`dict.get` with a
default becomes `Option.getD`); raised exceptions become
`Except.error`; Python `float` percentages and rates are modelled as
exact rationals; timestamps are integers (seconds).
-/

namespace Roadmap

/-- Lowercasing of a status string, modelling Python `str.lower`
character by character. -/
def lowerStr (s : String) : String := String.mk (s.data.map Char.toLower)

/-- Python `needle in hay` on strings: substring containment. -/
def containsSub (needle hay : String) : Bool := decide (needle.data <:+: hay.data)

/-- A pull-request record as built by `get_github_data` (`app.py`
lines 107-115).  `created_at` keeps the raw ISO string; `days_open`
is the derived whole-day age. -/
structure PrRecord where
  repo : String
  number : Int
  title : String
  author : String
  created_at : String
  days_open : Int
  url : String
deriving DecidableEq

/-- An issue record (`app.py` lines 122-132, and the Jira shape of
lines 187-195).  `assignee` is `none` when the key is absent
(`dict.get` with no default returns `None`); GitHub-built records set
it to the sentinel `"Unassigned"` when the tracker reports no
assignee.  `status` is only present on Jira-shaped records, so it is
an `Option`; `calculate_feature_progress` reads it with default `""`. -/
structure IssueRecord where
  repo : String
  number : Int
  title : String
  author : String
  assignee : Option String
  created_at : String
  days_open : Int
  labels : List String
  url : String
  status : Option String
deriving DecidableEq

/-- A commit record (`app.py` lines 138-144).  `date` is the parsed
commit timestamp in seconds, timezone offset dropped, mirroring
`datetime.fromisoformat(...).replace(tzinfo=None)`. -/
structure CommitRecord where
  repo : String
  sha : String
  author : String
  date : Int
  message : String
deriving DecidableEq

/-- A repository summary record (`app.py` lines 148-153). -/
structure RepoSummary where
  name : String
  stars : Int
  forks : Int
  open_issues : Int
deriving DecidableEq

/-- The blocker dictionaries built by `identify_blockers` (`app.py`
lines 226-247).  `type`, `severity` keep their literal string values. -/
structure Blocker where
  type : String
  severity : String
  title : String
  repo : String
  days : Int
  url : String
  description : String
deriving DecidableEq

/-- The result dictionary of `calculate_feature_progress` (`app.py`
lines 202-216).  The early return for an empty input (line 205) omits
the `in_progress` key, hence that field is an `Option`. -/
structure ProgressSummary where
  total : Nat
  completed : Nat
  in_progress : Option Nat
  percentage : Rat
deriving DecidableEq

/-- The status strings counted as completed (`app.py` line 208). -/
def completedStatuses : List String := ["done", "closed", "completed"]

/-- The completed-issue predicate of `app.py` line 208:
`issue.get("status", "").lower() in ["done", "closed", "completed"]`. -/
def isCompleted (issue : IssueRecord) : Bool :=
  decide (lowerStr (issue.status.getD "") ∈ completedStatuses)

/-- The in-progress predicate of `app.py` line 214:
`"progress" in issue.get("status", "").lower()`. -/
def isInProgress (issue : IssueRecord) : Bool :=
  containsSub "progress" (lowerStr (issue.status.getD ""))

/-- `calculate_feature_progress` (`app.py` lines 202-216). -/
def calculate_feature_progress (issues : List IssueRecord) : ProgressSummary :=
  if issues.isEmpty then
    { total := 0, completed := 0, in_progress := none, percentage := 0 }
  else
    let total := issues.length
    let completed := issues.countP isCompleted
    let percentage : Rat := if 0 < total then (completed : Rat) / (total : Rat) * 100 else 0
    { total := total
      completed := completed
      in_progress := some (issues.countP isInProgress)
      percentage := percentage }

/-- The blocker built from an over-age PR (`app.py` lines 226-234).
Severity compares `days_open` against the fixed constant 7, not
against the configured threshold. -/
def prBlocker (pr : PrRecord) : Blocker :=
  { type := "PR"
    severity := if pr.days_open > 7 then "high" else "medium"
    title := pr.title
    repo := pr.repo
    days := pr.days_open
    url := pr.url
    description :=
      "PR #" ++ toString pr.number ++ " open for " ++ toString pr.days_open ++ " days" }

/-- The blocker built from a stale unassigned issue (`app.py`
lines 239-247). -/
def issueBlocker (issue : IssueRecord) : Blocker :=
  { type := "Issue"
    severity := "medium"
    title := issue.title
    repo := issue.repo
    days := issue.days_open
    url := issue.url
    description :=
      "Issue #" ++ toString issue.number ++ " unassigned for "
        ++ toString issue.days_open ++ " days" }

/-- The PR loop of `identify_blockers` (`app.py` lines 224-234):
every PR with `days_open > pr_threshold` becomes a blocker, in input
order. -/
def prBlockersOf (prs : List PrRecord) (pr_threshold : Int) : List Blocker :=
  (prs.filter (fun pr => decide (pr.days_open > pr_threshold))).map prBlocker

/-- The issue loop of `identify_blockers` (`app.py` lines 237-247):
every issue whose assignee is the sentinel `"Unassigned"` with
`days_open > issue_threshold` becomes a blocker, in input order. -/
def issueBlockersOf (issues : List IssueRecord) (issue_threshold : Int) : List Blocker :=
  (issues.filter
      (fun issue => decide (issue.assignee = some "Unassigned"
        ∧ issue.days_open > issue_threshold))).map issueBlocker

/-- The descending-by-age order used by the final
`sorted(blockers, key=lambda x: x["days"], reverse=True)` of `app.py`
line 249. -/
def blockerLE (a b : Blocker) : Prop := b.days ≤ a.days

instance : DecidableRel blockerLE := fun a b => inferInstanceAs (Decidable (b.days ≤ a.days))

instance : IsTotal Blocker blockerLE := ⟨fun a b => le_total b.days a.days⟩

instance : IsTrans Blocker blockerLE := ⟨fun _ _ _ hab hbc => le_trans hbc hab⟩

/-- `identify_blockers` (`app.py` lines 219-249).  Python's `sorted`
is a stable sort; with `reverse=True` it keeps the original order of
equal keys, which a stable insertion sort under `blockerLE` models
exactly.  The thresholds default to 3 and 7 in the source; they are
explicit arguments here. -/
def identify_blockers (prs : List PrRecord) (issues : List IssueRecord)
    (pr_threshold : Int) (issue_threshold : Int) : List Blocker :=
  List.insertionSort blockerLE
    (prBlockersOf prs pr_threshold ++ issueBlockersOf issues issue_threshold)

/-- Seconds in a day, for the `timedelta(days=days)` arithmetic. -/
def secondsPerDay : Int := 86400

/-- The calendar day of a timestamp, modelling `datetime.date()`. -/
def calendarDate (t : Int) : Int := Int.fdiv t secondsPerDay

/-- The result dictionary of `calculate_velocity` (`app.py`
lines 267-272).  `commits_by_day` is an insertion-ordered association
list, modelling the Python dict. -/
structure VelocitySummary where
  commits_last_7d : Nat
  commits_per_day : Rat
  commits_by_day : List (Int × Nat)
  total_commits : Nat
deriving DecidableEq

/-- One step of the day-bucketing loop of `app.py` lines 263-265:
`commits_by_day[date] = commits_by_day.get(date, 0) + 1`. -/
def bumpDay (m : List (Int × Nat)) (d : Int) : List (Int × Nat) :=
  if m.any (fun p => p.1 == d) then
    m.map (fun p => if p.1 == d then (p.1, p.2 + 1) else p)
  else m ++ [(d, 1)]

/-- `calculate_velocity` (`app.py` lines 252-272).  `now` stands for
`datetime.now()`; the PR list is accepted and unused, as in the
source. -/
def calculate_velocity (now : Int) (commits : List CommitRecord) (prs : List PrRecord)
    (days : Int) : VelocitySummary :=
  let cutoff_date := now - days * secondsPerDay
  let recent_commits := commits.filter (fun c => decide (c.date > cutoff_date))
  let commits_by_day := recent_commits.foldl (fun m c => bumpDay m (calendarDate c.date)) []
  { commits_last_7d := recent_commits.length
    commits_per_day :=
      if days > 0 then (recent_commits.length : Rat) / (days : Rat) else 0
    commits_by_day := commits_by_day
    total_commits := commits.length }

/-- The aggregate dictionary built by `get_github_data` (`app.py`
lines 85-90). -/
structure GithubData where
  prs : List PrRecord
  issues : List IssueRecord
  commits : List CommitRecord
  repos : List RepoSummary
deriving DecidableEq

/-- An entry of a repository's issue listing.  The hosting API
conflates PRs with issues, so each entry carries a flag telling the
loop to skip it (`app.py` lines 119-120). -/
structure ApiIssue where
  record : IssueRecord
  pull_request : Bool
deriving DecidableEq

/-- One resolved repository together with the outcomes of its three
listing calls.  A listing outcome of `Except.error e` models that API
call raising an exception with message `e`; records carry their
already-normalized fields. -/
structure ApiRepo where
  summary : RepoSummary
  pulls : Except String (List PrRecord)
  issuesList : Except String (List ApiIssue)
  commitsList : Except String (List CommitRecord)

/-- The empty aggregate (`app.py` lines 85-90). -/
def emptyData : GithubData := { prs := [], issues := [], commits := [], repos := [] }

/-- The list of an `Except`-valued listing, `[]` on error. -/
def okListD {α : Type} (x : Except String (List α)) : List α := x.toOption.getD []

/-- One iteration of the repository loop of `get_github_data`
(`app.py` lines 101-153): a failing PR or issue listing raises out of
the enclosing `try` and aborts the fetch, while a failing commit
listing is swallowed by the inner `try`/`except: pass` (lines
135-146) and contributes no commits. -/
def processRepo (data : GithubData) (r : ApiRepo) : Except String GithubData :=
  match r.pulls with
  | .error e => .error e
  | .ok ps =>
    match r.issuesList with
    | .error e => .error e
    | .ok iss =>
      let cs := match r.commitsList with
        | .error _ => []
        | .ok cs => cs
      .ok { prs := data.prs ++ ps
            issues := data.issues
              ++ (iss.filter (fun i => !i.pull_request)).map ApiIssue.record
            commits := data.commits ++ cs
            repos := data.repos ++ [r.summary] }

/-- The repository loop of `get_github_data`: the first raising
iteration aborts the whole fetch (`app.py` lines 155-156). -/
def processRepos (data : GithubData) : List ApiRepo → Except String GithubData
  | [] => .ok data
  | r :: rs =>
    match processRepo data r with
    | .error e => .error e
    | .ok d => processRepos d rs

/-- `get_github_data` (`app.py` lines 78-158), starting from the
outcome of repository resolution (lines 94-99): a resolution failure
is caught by the outer `try` and returned as a single
`{"error": ...}` dictionary, discarding everything else. -/
def get_github_data (resolved : Except String (List ApiRepo)) : Except String GithubData :=
  match resolved with
  | .error e => .error e
  | .ok repos => processRepos emptyData repos

end Roadmap

namespace Roadmap

/-! Concrete sample records, used by the example parts of the theorems
below and by their closed instantiations. -/

/-- A commit dated `n` days after the epoch. -/
def sampleCommit (n : Int) : CommitRecord :=
  { repo := "a/b", sha := "0000000", author := "dev", date := n * 86400, message := "m" }

/-- Ten commits: seven inside the trailing 7-day window ending at day
10, three outside it. -/
def sampleCommits : List CommitRecord :=
  [sampleCommit 4, sampleCommit 5, sampleCommit 6, sampleCommit 7, sampleCommit 8,
   sampleCommit 9, sampleCommit 10, sampleCommit 1, sampleCommit 2, sampleCommit 3]

/-- A PR open for 10 days. -/
def samplePr : PrRecord :=
  { repo := "a/b", number := 12, title := "t12", author := "dev",
    created_at := "2026-10-01T00:00:00", days_open := 10, url := "u12" }

/-- A PR open for exactly the default threshold of 3 days. -/
def samplePrAtThreshold : PrRecord :=
  { repo := "a/b", number := 1, title := "t1", author := "dev",
    created_at := "", days_open := 3, url := "u1" }

/-- A PR open for one day more than the default threshold of 3 days. -/
def samplePrPastThreshold : PrRecord :=
  { repo := "a/b", number := 2, title := "t2", author := "dev",
    created_at := "", days_open := 4, url := "u2" }

/-- An unassigned issue open for exactly the default threshold of 7 days. -/
def sampleIssueAtThreshold : IssueRecord :=
  { repo := "a/b", number := 3, title := "t3", author := "dev",
    assignee := some "Unassigned", created_at := "", days_open := 7,
    labels := [], url := "u3", status := none }

/-- An unassigned issue open for 8 days. -/
def sampleIssuePastThreshold : IssueRecord :=
  { repo := "a/b", number := 4, title := "t4", author := "dev",
    assignee := some "Unassigned", created_at := "", days_open := 8,
    labels := [], url := "u4", status := none }

/-- An issue whose tracker status is the string used by the spec's
in-progress test case. -/
def issueInProg : IssueRecord :=
  { repo := "a/b", number := 5, title := "t5", author := "dev",
    assignee := none, created_at := "", days_open := 1,
    labels := [], url := "u5", status := some "In Progress" }

/-- An issue whose tracker status is the string used by the spec's
completed test case. -/
def issueDone : IssueRecord :=
  { repo := "a/b", number := 6, title := "t6", author := "dev",
    assignee := none, created_at := "", days_open := 1,
    labels := [], url := "u6", status := some "Done" }

/-- A repository summary for the sample repositories. -/
def sampleSummary : RepoSummary := { name := "a/b", stars := 1, forks := 0, open_issues := 2 }

/-- A repository whose three listing calls all succeed; its issue
listing contains one real issue and one PR-shaped entry that the loop
must skip. -/
def repoOkA : ApiRepo :=
  { summary := sampleSummary
    pulls := Except.ok [samplePr]
    issuesList := Except.ok [⟨issueDone, false⟩, ⟨issueInProg, true⟩]
    commitsList := Except.ok [sampleCommit 9] }

/-- A repository whose PR listing raises. -/
def repoBadPulls : ApiRepo :=
  { summary := sampleSummary
    pulls := Except.error "401 bad credentials"
    issuesList := Except.ok []
    commitsList := Except.ok [] }

/-- A repository whose commit listing raises, which the loop swallows. -/
def repoBadCommits : ApiRepo :=
  { summary := sampleSummary
    pulls := Except.ok []
    issuesList := Except.ok []
    commitsList := Except.error "409 empty repository" }

end Roadmap

namespace Roadmap

/-! Helper lemmas. -/

/-- A completed status is never an in-progress status: the three
literal completed statuses do not contain the substring "progress". -/
theorem isCompleted_not_isInProgress (i : IssueRecord) (h : isCompleted i = true) :
    isInProgress i = false := by
  have hmem : lowerStr (i.status.getD "") ∈ completedStatuses := by
    simpa [isCompleted] using h
  simp only [completedStatuses, List.mem_cons, List.not_mem_nil, or_false] at hmem
  unfold isInProgress containsSub
  rcases hmem with h1 | h1 | h1 <;> rw [h1] <;> decide

/-- Counts under two mutually exclusive predicates sum to at most the
length. -/
theorem countP_add_countP_le_length {α : Type} (p q : α → Bool) (l : List α)
    (h : ∀ x ∈ l, p x = true → q x = false) :
    l.countP p + l.countP q ≤ l.length := by
  induction l with
  | nil => simp
  | cons a t ih =>
    have ihs := ih (fun x hx => h x (List.mem_cons_of_mem a hx))
    by_cases hp : p a = true
    · have hq : q a = false := h a (List.mem_cons_self a t) hp
      simp [List.countP_cons, hp, hq, List.length_cons]
      omega
    · simp only [List.countP_cons, List.length_cons]
      have : (if p a then 1 else 0) = 0 := by simp [hp]
      rw [this]
      split <;> omega

/-- Inserting an element into a list moves it past strictly younger
blockers only, so the sublist of blockers of any one fixed age is
unchanged except for a fresh head when the new element has that age. -/
theorem filter_days_orderedInsert (d : Int) (x : Blocker) (l : List Blocker) :
    (l.orderedInsert blockerLE x).filter (fun b => b.days == d)
      = if x.days == d then x :: l.filter (fun b => b.days == d)
        else l.filter (fun b => b.days == d) := by
  induction l with
  | nil => by_cases hx : x.days == d <;> simp [List.filter, hx]
  | cons y t ih =>
    by_cases hxy : blockerLE x y
    · rw [List.orderedInsert_of_le _ _ hxy]
      by_cases hx : x.days == d <;> simp [List.filter_cons, hx]
    · simp only [List.orderedInsert, if_neg hxy]
      have hlt : x.days < y.days := not_le.mp hxy
      by_cases hx : x.days == d
      · have hxd : x.days = d := by simpa using hx
        have hyd : (y.days == d) = false := by
          simp only [beq_eq_false_iff_ne, ne_eq]
          omega
        simp [List.filter_cons, hyd, ih, hx]
      · by_cases hy : y.days == d <;> simp [List.filter_cons, ih, hx, hy]

/-- Stability of the blocker sort: the sort keeps the original
relative order of the blockers of any one fixed age. -/
theorem filter_days_insertionSort (d : Int) (l : List Blocker) :
    (l.insertionSort blockerLE).filter (fun b => b.days == d)
      = l.filter (fun b => b.days == d) := by
  induction l with
  | nil => rfl
  | cons x t ih =>
    rw [List.insertionSort, filter_days_orderedInsert, ih]
    by_cases hx : x.days == d <;> simp [List.filter_cons, hx]

/-- The repository loop succeeds when every PR and issue listing
succeeds, aggregating per-repo results in order; a repository whose
commit listing failed contributes the empty commit list. -/
theorem processRepos_ok (repos : List ApiRepo) (data : GithubData)
    (h : ∀ r ∈ repos, r.pulls.isOk = true ∧ r.issuesList.isOk = true) :
    processRepos data repos = Except.ok
      { prs := data.prs ++ repos.flatMap (fun r => okListD r.pulls)
        issues := data.issues ++ repos.flatMap
          (fun r => ((okListD r.issuesList).filter (fun i => !i.pull_request)).map ApiIssue.record)
        commits := data.commits ++ repos.flatMap (fun r => okListD r.commitsList)
        repos := data.repos ++ repos.map ApiRepo.summary } := by
  induction repos generalizing data with
  | nil => simp [processRepos]
  | cons r rs ih =>
    obtain ⟨hp, hi⟩ := h r (List.mem_cons_self r rs)
    obtain ⟨ps, hps⟩ : ∃ ps, r.pulls = Except.ok ps := by
      cases hpe : r.pulls
      · rw [hpe] at hp; simp [Except.isOk, Except.toBool] at hp
      · exact ⟨_, rfl⟩
    obtain ⟨iss, hiss⟩ : ∃ iss, r.issuesList = Except.ok iss := by
      cases hie : r.issuesList
      · rw [hie] at hi; simp [Except.isOk, Except.toBool] at hi
      · exact ⟨_, rfl⟩
    have hcs : (match r.commitsList with
        | .error _ => ([] : List CommitRecord)
        | .ok cs => cs) = okListD r.commitsList := by
      cases r.commitsList <;> simp [okListD, Except.toOption]
    simp only [processRepos, processRepo, hps, hiss, hcs]
    rw [ih _ (fun x hx => h x (List.mem_cons_of_mem r hx))]
    simp [okListD, hps, hiss, Except.toOption, List.flatMap_cons, List.append_assoc]

/-- The repository loop fails outright as soon as any repository's PR
or issue listing fails. -/
theorem processRepos_bad (repos : List ApiRepo) (data : GithubData)
    (h : ∃ r ∈ repos, r.pulls.isOk = false ∨ r.issuesList.isOk = false) :
    (processRepos data repos).isOk = false := by
  induction repos generalizing data with
  | nil => simp at h
  | cons r rs ih =>
    obtain ⟨r0, hr0, hbad⟩ := h
    rcases List.mem_cons.mp hr0 with rfl | hmem
    · cases hp : r0.pulls with
      | error e => simp [processRepos, processRepo, hp, Except.isOk, Except.toBool]
      | ok ps =>
        cases hi : r0.issuesList with
        | error e => simp [processRepos, processRepo, hp, hi, Except.isOk, Except.toBool]
        | ok iss =>
          rw [hp, hi] at hbad
          simp [Except.isOk, Except.toBool] at hbad
    · cases hpr : processRepo data r with
      | error e => simp [processRepos, hpr, Except.isOk, Except.toBool]
      | ok d2 =>
        simp only [processRepos, hpr]
        exact ih d2 ⟨r0, hmem, hbad⟩

/-! Claim theorems. -/

/-- Claim C1: every blocker produced by `identify_blockers` that
derives from a PR has severity "high" exactly when its age exceeds
the fixed constant 7 and "medium" otherwise, for every configured
threshold pair; every issue-derived blocker has severity "medium";
and no blocker ever has severity "low". -/
theorem identify_blockers_severity (prs : List PrRecord) (issues : List IssueRecord)
    (pt it : Int) (b : Blocker) (hb : b ∈ identify_blockers prs issues pt it) :
    (b.type = "PR" → b.severity = if b.days > 7 then "high" else "medium") ∧
    (b.type = "Issue" → b.severity = "medium") ∧
    b.severity ≠ "low" := by
  have hb2 : b ∈ prBlockersOf prs pt ++ issueBlockersOf issues it := by
    simpa [identify_blockers, List.mem_insertionSort] using hb
  rcases List.mem_append.mp hb2 with h | h
  · obtain ⟨pr, hpr, rfl⟩ := List.mem_map.mp h
    refine ⟨fun _ => ?_, fun hty => ?_, ?_⟩
    · simp [prBlocker]
    · simp [prBlocker] at hty
    · simp only [prBlocker]
      split <;> decide
  · obtain ⟨i, hi, rfl⟩ := List.mem_map.mp h
    refine ⟨fun hty => ?_, fun _ => rfl, ?_⟩
    · simp [issueBlocker] at hty
    · simp [issueBlocker]

/-- Claim C1, witnessed at a PR open for 10 days against thresholds
3 and 7. -/
theorem identify_blockers_severity_witness :
    ((prBlocker samplePr).type = "PR" →
      (prBlocker samplePr).severity
        = if (prBlocker samplePr).days > 7 then "high" else "medium") ∧
    ((prBlocker samplePr).type = "Issue" → (prBlocker samplePr).severity = "medium") ∧
    (prBlocker samplePr).severity ≠ "low" :=
  identify_blockers_severity [samplePr] [] 3 7 (prBlocker samplePr) (by decide)

/-- Claim C2: both blocker rules compare strictly.  A PR open exactly
`pr_threshold` days yields no blocker and one more day yields exactly
one; an issue assigned to the sentinel "Unassigned" open exactly
`issue_threshold` days yields no blocker and one more day yields one
blocker of severity "medium"; for every threshold pair at least 1. -/
theorem identify_blockers_strict_thresholds (pt it : Int) (hpt : 1 ≤ pt) (hit : 1 ≤ it)
    (prA prB : PrRecord) (isA isB : IssueRecord)
    (hA : prA.days_open = pt) (hB : prB.days_open = pt + 1)
    (hAu : isA.assignee = some "Unassigned") (hA2 : isA.days_open = it)
    (hBu : isB.assignee = some "Unassigned") (hB2 : isB.days_open = it + 1) :
    identify_blockers [prA] [] pt it = [] ∧
    identify_blockers [prB] [] pt it = [prBlocker prB] ∧
    identify_blockers [] [isA] pt it = [] ∧
    identify_blockers [] [isB] pt it = [issueBlocker isB] ∧
    (issueBlocker isB).severity = "medium" := by
  refine ⟨?_, ?_, ?_, ?_, rfl⟩
  · simp [identify_blockers, prBlockersOf, issueBlockersOf, List.filter, hA]
  · simp [identify_blockers, prBlockersOf, issueBlockersOf, List.filter, hB,
      List.insertionSort]
  · simp [identify_blockers, prBlockersOf, issueBlockersOf, List.filter, hAu, hA2]
  · simp [identify_blockers, prBlockersOf, issueBlockersOf, List.filter, hBu, hB2,
      List.insertionSort]

/-- Claim C2, witnessed at the default thresholds 3 and 7 with
concrete records aged 3, 4, 7 and 8 days. -/
theorem identify_blockers_strict_thresholds_witness :
    identify_blockers [samplePrAtThreshold] [] 3 7 = [] ∧
    identify_blockers [samplePrPastThreshold] [] 3 7 = [prBlocker samplePrPastThreshold] ∧
    identify_blockers [] [sampleIssueAtThreshold] 3 7 = [] ∧
    identify_blockers [] [sampleIssuePastThreshold] 3 7
      = [issueBlocker sampleIssuePastThreshold] ∧
    (issueBlocker sampleIssuePastThreshold).severity = "medium" :=
  identify_blockers_strict_thresholds 3 7 (by decide) (by decide)
    samplePrAtThreshold samplePrPastThreshold sampleIssueAtThreshold sampleIssuePastThreshold
    (by decide) (by decide) (by decide) (by decide) (by decide) (by decide)

/-- Claim C3, counterexample: on the empty issue list
`calculate_feature_progress` returns the early dictionary of `app.py`
line 205, which has no `in_progress` key, so not all four fields are
present. -/
theorem calculate_feature_progress_empty_no_in_progress :
    (calculate_feature_progress []).in_progress = none := rfl

/-- Claim C3, amended: `calculate_feature_progress` always returns
the `total`, `completed` and `percentage` fields, but the
`in_progress` field is present exactly when the input list is
non-empty; the empty-list early return omits it. -/
theorem calculate_feature_progress_fields (issues : List IssueRecord) :
    ((calculate_feature_progress issues).in_progress).isSome = !issues.isEmpty := by
  by_cases h : issues.isEmpty <;> simp [calculate_feature_progress, h]

/-- Claim C4: the percentage is always within [0, 100], and is 0 on
the empty list. -/
theorem calculate_feature_progress_percentage_bounds (issues : List IssueRecord) :
    0 ≤ (calculate_feature_progress issues).percentage ∧
    (calculate_feature_progress issues).percentage ≤ 100 ∧
    (calculate_feature_progress []).percentage = 0 := by
  by_cases h : issues.isEmpty
  · refine ⟨?_, ?_, rfl⟩ <;> simp [calculate_feature_progress, h]
  · have hne : issues ≠ [] := by simpa [List.isEmpty_iff] using h
    have hlen : 0 < issues.length := List.length_pos.mpr hne
    have hl : (0 : Rat) < (issues.length : Rat) := by exact_mod_cast hlen
    have hc : ((issues.countP isCompleted : Nat) : Rat) ≤ ((issues.length : Nat) : Rat) := by
      exact_mod_cast List.countP_le_length _
    refine ⟨?_, ?_, rfl⟩ <;> simp [calculate_feature_progress, h, if_pos hlen]
    · positivity
    · exact (div_le_one hl).mpr hc

/-- Claim C5: `completed` counts exactly the issues whose lowercased
status is in the literal set, `in_progress` counts exactly the issues
whose lowercased status contains the substring "progress", the status
"In Progress" counts only toward `in_progress`, the status "Done"
counts only toward `completed`, no issue counts toward both, and
`completed + in_progress` never exceeds `total`. -/
theorem calculate_feature_progress_counting :
    (∀ issues, (calculate_feature_progress issues).completed = issues.countP isCompleted) ∧
    (∀ issues, ((calculate_feature_progress issues).in_progress).getD 0
        = issues.countP isInProgress) ∧
    (∀ i : IssueRecord, i.status = some "In Progress" →
        isCompleted i = false ∧ isInProgress i = true) ∧
    (∀ i : IssueRecord, i.status = some "Done" →
        isCompleted i = true ∧ isInProgress i = false) ∧
    (∀ i : IssueRecord, isCompleted i = true → isInProgress i = false) ∧
    (∀ issues, (calculate_feature_progress issues).completed
        + ((calculate_feature_progress issues).in_progress).getD 0
        ≤ (calculate_feature_progress issues).total) := by
  refine ⟨?_, ?_, ?_, ?_, ?_, ?_⟩
  · intro issues
    by_cases h : issues.isEmpty
    · have : issues = [] := by simpa [List.isEmpty_iff] using h
      subst this; simp [calculate_feature_progress]
    · simp [calculate_feature_progress, h]
  · intro issues
    by_cases h : issues.isEmpty
    · have : issues = [] := by simpa [List.isEmpty_iff] using h
      subst this; simp [calculate_feature_progress]
    · simp [calculate_feature_progress, h]
  · intro i hi
    constructor
    · unfold isCompleted; rw [hi]; decide
    · unfold isInProgress containsSub; rw [hi]; decide
  · intro i hi
    constructor
    · unfold isCompleted; rw [hi]; decide
    · unfold isInProgress containsSub; rw [hi]; decide
  · exact isCompleted_not_isInProgress
  · intro issues
    by_cases h : issues.isEmpty
    · have : issues = [] := by simpa [List.isEmpty_iff] using h
      subst this; simp [calculate_feature_progress]
    · simp only [calculate_feature_progress, h, Bool.false_eq_true, if_false, Option.getD_some]
      exact countP_add_countP_le_length _ _ _
        (fun x _ hx => isCompleted_not_isInProgress x hx)

/-- Claim C5, witnessed at an "In Progress" issue, a "Done" issue,
and the two-element list holding both. -/
theorem calculate_feature_progress_counting_witness :
    (isCompleted issueInProg = false ∧ isInProgress issueInProg = true) ∧
    (isCompleted issueDone = true ∧ isInProgress issueDone = false) ∧
    (calculate_feature_progress [issueInProg, issueDone]).completed
      + ((calculate_feature_progress [issueInProg, issueDone]).in_progress).getD 0
      ≤ (calculate_feature_progress [issueInProg, issueDone]).total :=
  ⟨calculate_feature_progress_counting.2.2.1 issueInProg rfl,
   calculate_feature_progress_counting.2.2.2.1 issueDone rfl,
   calculate_feature_progress_counting.2.2.2.2.2 [issueInProg, issueDone]⟩

/-- Claim C6: for every pair of input lists and every threshold pair,
the blocker list returned by `identify_blockers` is sorted
non-increasing by its `days` field. -/
theorem identify_blockers_sorted (prs : List PrRecord) (issues : List IssueRecord)
    (pt it : Int) :
    (identify_blockers prs issues pt it).Pairwise (fun a b => b.days ≤ a.days) :=
  List.sorted_insertionSort blockerLE _

/-- Claim C7: `commits_last_7d` counts exactly the commits strictly
after `now` minus the window, `total_commits` is the length of the
full unfiltered input, `commits_per_day` is the filtered count over
the window (0 when the window is not positive); and on ten sample
commits with seven inside a 7-day window the results are 7, 10 and
1.0. -/
theorem calculate_velocity_spec :
    (∀ (now : Int) (commits : List CommitRecord) (prs : List PrRecord) (days : Int),
      (calculate_velocity now commits prs days).commits_last_7d
          = commits.countP (fun c => decide (c.date > now - days * secondsPerDay))
        ∧ (calculate_velocity now commits prs days).total_commits = commits.length
        ∧ (calculate_velocity now commits prs days).commits_per_day
          = (if days > 0
              then ((commits.countP
                  (fun c => decide (c.date > now - days * secondsPerDay))) : Rat) / (days : Rat)
              else 0)) ∧
    ((calculate_velocity (10 * secondsPerDay) sampleCommits [] 7).commits_last_7d = 7
      ∧ (calculate_velocity (10 * secondsPerDay) sampleCommits [] 7).total_commits = 10
      ∧ (calculate_velocity (10 * secondsPerDay) sampleCommits [] 7).commits_per_day = 1) := by
  constructor
  · intro now commits prs days
    refine ⟨?_, rfl, ?_⟩
    · simp [calculate_velocity, List.countP_eq_length_filter]
    · simp [calculate_velocity, List.countP_eq_length_filter]
  · refine ⟨by decide, by decide, ?_⟩
    norm_num [calculate_velocity, sampleCommits, sampleCommit, secondsPerDay]

/-- Claim C8: the result of `calculate_velocity` does not depend on
the PR-list argument, which is accepted but never read. -/
theorem calculate_velocity_prs_independent (now : Int) (commits : List CommitRecord)
    (days : Int) (prs1 prs2 : List PrRecord) :
    calculate_velocity now commits prs1 days = calculate_velocity now commits prs2 days := rfl

/-- Claim C9: a failing repository resolution returns exactly the
single error descriptor; a failing PR or issue listing in any
repository makes the whole fetch fail with an error result carrying
no partial data; and when all PR and issue listings succeed the fetch
succeeds, each repository contributing its commits when its commit
listing succeeded and no commits when it failed. -/
theorem get_github_data_error_policy :
    (∀ e, get_github_data (Except.error e) = Except.error e) ∧
    (∀ repos, (∃ r ∈ repos, r.pulls.isOk = false ∨ r.issuesList.isOk = false) →
        (get_github_data (Except.ok repos)).isOk = false) ∧
    (∀ repos, (∀ r ∈ repos, r.pulls.isOk = true ∧ r.issuesList.isOk = true) →
        get_github_data (Except.ok repos) = Except.ok
          { prs := repos.flatMap (fun r => okListD r.pulls)
            issues := repos.flatMap
              (fun r => ((okListD r.issuesList).filter
                (fun i => !i.pull_request)).map ApiIssue.record)
            commits := repos.flatMap (fun r => okListD r.commitsList)
            repos := repos.map ApiRepo.summary }) := by
  refine ⟨fun e => rfl, fun repos h => ?_, fun repos h => ?_⟩
  · exact processRepos_bad repos emptyData h
  · have := processRepos_ok repos emptyData h
    simpa [get_github_data, emptyData] using this

/-- Claim C9, witnessed at a failing PR listing and at a fetch whose
second repository has a failing commit listing. -/
theorem get_github_data_error_policy_witness :
    (get_github_data (Except.ok [repoOkA, repoBadPulls])).isOk = false ∧
    get_github_data (Except.ok [repoOkA, repoBadCommits]) = Except.ok
      { prs := [repoOkA, repoBadCommits].flatMap (fun r => okListD r.pulls)
        issues := [repoOkA, repoBadCommits].flatMap
          (fun r => ((okListD r.issuesList).filter
            (fun i => !i.pull_request)).map ApiIssue.record)
        commits := [repoOkA, repoBadCommits].flatMap (fun r => okListD r.commitsList)
        repos := [repoOkA, repoBadCommits].map ApiRepo.summary } :=
  ⟨get_github_data_error_policy.2.1 [repoOkA, repoBadPulls]
    ⟨repoBadPulls, List.mem_cons_of_mem repoOkA (List.mem_cons_self repoBadPulls []),
      Or.inl rfl⟩,
   get_github_data_error_policy.2.2 [repoOkA, repoBadCommits] (by
    intro r hr
    rcases List.mem_cons.mp hr with rfl | hr2
    · exact ⟨rfl, rfl⟩
    · rcases List.mem_cons.mp hr2 with rfl | h3
      · exact ⟨rfl, rfl⟩
      · cases h3)⟩

/-- Claim C10: ties in the blocker sort are deterministic and follow
construction order.  The sublist of blockers of any one fixed age in
the output equals the PR-derived blockers of that age in PR input
order followed by the issue-derived blockers of that age in issue
input order, because PR blockers are appended first and the sort is
stable. -/
theorem identify_blockers_tie_order (prs : List PrRecord) (issues : List IssueRecord)
    (pt it d : Int) :
    (identify_blockers prs issues pt it).filter (fun b => b.days == d)
      = (prBlockersOf prs pt).filter (fun b => b.days == d)
        ++ (issueBlockersOf issues it).filter (fun b => b.days == d) := by
  rw [identify_blockers, filter_days_insertionSort, List.filter_append]

end Roadmap
